import Mathlib

/-!
Verification of the telemetry ingest / subscription fan-out service in
`src/main.py` (FastAPI + SQLAlchemy + WebSockets), as a shallow embedding.

Modelling conventions:
* `datetime` values are modelled by `DateTime` (calendar components).
* Python `float` fields are modelled by `Rat` (the claims only carry the
  values around; no floating-point arithmetic occurs in the source).
* WebSocket connection handles are modelled by `Nat` identifiers.
* The module-level `subscriptions : Dict[int, Set[WebSocket]]` is modelled
  as an association list from agent id to the agent's connection list (the
  list order models the set's iteration order).
* The durable Record Store (SQLAlchemy session / Postgres) is an external
  collaborator; it is modelled as a list of records, and the outcome of
  `session.commit()` in the create handler is an explicit `commitOk`
  parameter.  The outcome of `websocket.send_text` is an explicit
  `sendOk` predicate on connection handles.
* The observable behaviour of a handler run is an event trace (`Ev`):
  a store commit, a registry lookup, or a message sent to a connection.
-/

/-- Model of Python `datetime.datetime` values: calendar components. -/
structure DateTime where
  year : Nat
  month : Nat
  day : Nat
  hour : Nat
  minute : Nat
  second : Nat
deriving DecidableEq, Repr

/-- Interpret a list of characters as a decimal numeral: `some n` when all
characters are digits and the list is nonempty, else `none`. -/
def parseDigits (cs : List Char) : Option Nat :=
  if cs = [] then none
  else if cs.all (fun c => c.isDigit) then
    some (cs.foldl (fun acc c => acc * 10 + (c.toNat - 48)) 0)
  else none

/-- Permissive check of an ISO-8601 timezone suffix: empty, `Z`/`z`, or a
sign followed by digits and colons.  The real parsers are stricter about
the offset's exact shape; over-acceptance here only shrinks the modelled
reject set, which is the sound direction for every theorem below that
speaks about rejected inputs. -/
def isTzTail : List Char → Bool
  | [] => true
  | ['Z'] => true
  | ['z'] => true
  | '+' :: rest => rest.all (fun c => c.isDigit || c == ':')
  | '-' :: rest => rest.all (fun c => c.isDigit || c == ':')
  | _ => false

/-- Parse the time-of-day part of an ISO-8601 datetime:
`HH[:MM[:SS[.fraction]]]` followed by an optional timezone suffix.
Minutes/seconds are optional here although the libraries require minutes;
again over-acceptance is the sound direction. -/
def parseIsoTime : List Char → Option (Nat × Nat × Nat)
  | h1 :: h2 :: rest => do
      let h ← parseDigits [h1, h2]
      match rest with
      | ':' :: n1 :: n2 :: rest2 => do
          let mi ← parseDigits [n1, n2]
          match rest2 with
          | ':' :: s1 :: s2 :: rest3 => do
              let se ← parseDigits [s1, s2]
              let rest4 := match rest3 with
                | '.' :: r => r.dropWhile (fun c => c.isDigit)
                | r => r
              if isTzTail rest4 then some (h, mi, se) else none
          | _ => if isTzTail rest2 then some (h, mi, 0) else none
      | _ => if isTzTail rest then some (h, 0, 0) else none
  | _ => none

/-- Parse an ISO-8601 datetime string: `YYYY-MM-DD`, optionally followed
by a `T`/`t`/space separator and a time-of-day with optional fraction and
timezone.  Component range checks (month ≤ 12 etc.) are not modelled:
accepting more strings than the libraries only shrinks the modelled
reject set. -/
def parseIsoDateTime (s : String) : Option DateTime :=
  match s.toList with
  | y1 :: y2 :: y3 :: y4 :: '-' :: m1 :: m2 :: '-' :: d1 :: d2 :: rest => do
      let y ← parseDigits [y1, y2, y3, y4]
      let mo ← parseDigits [m1, m2]
      let d ← parseDigits [d1, d2]
      match rest with
      | [] => some ⟨y, mo, d, 0, 0, 0⟩
      | sep :: t =>
          if sep == 'T' || sep == 't' || sep == ' ' then do
            let (h, mi, se) ← parseIsoTime t
            some ⟨y, mo, d, h, mi, se⟩
          else none
  | _ => none

/-- Model of Python `datetime.fromisoformat` (3.11+ grammar, common
shapes).  This function is only reachable through `check_timestamp`,
which the source never registers as a validator (see there), so it is
dead code in the program. -/
def fromisoformat (s : String) : Option DateTime :=
  parseIsoDateTime s

/-- Parse a numeric string `[sign]digits[.digits]` as a unix timestamp in
seconds (fraction truncated).  Models the numeric-string branch of
pydantic's lax datetime coercion; the library's second-vs-millisecond
watershed for large magnitudes only changes the converted value, never
acceptance. -/
def parseUnixNumeric (s : String) : Option Int :=
  let cs := s.toList
  let signAndDigits : Bool × List Char :=
    match cs with
    | '-' :: rest => (true, rest)
    | '+' :: rest => (false, rest)
    | _ => (false, cs)
  let intPart := signAndDigits.2.takeWhile (fun c => c.isDigit)
  let rest := signAndDigits.2.dropWhile (fun c => c.isDigit)
  match parseDigits intPart with
  | none => none
  | some n =>
      let fracOk : Bool :=
        match rest with
        | [] => true
        | '.' :: frac => frac.all (fun c => c.isDigit)
        | _ => false
      if fracOk then some (if signAndDigits.1 then -(n : Int) else (n : Int)) else none

/-- Convert a unix timestamp (seconds since 1970-01-01T00:00:00 UTC) to
calendar components — the civil-from-days algorithm — modelling the
datetime pydantic builds from a numeric input.  (Years before year 0
collapse to 0 in the `Nat` year field; irrelevant to acceptance, and no
theorem inspects such a value.) -/
def fromUnix (n : Int) : DateTime :=
  let days : Int := n.fdiv 86400
  let rem : Nat := (n - days * 86400).toNat
  let z : Int := days + 719468
  let era : Int := z.fdiv 146097
  let doe : Nat := (z - era * 146097).toNat
  let yoe : Nat := (doe - doe / 1460 + doe / 36524 - doe / 146096) / 365
  let y : Int := (yoe : Int) + era * 400
  let doy : Nat := doe - (365 * yoe + yoe / 4 - yoe / 100)
  let mp : Nat := (5 * doy + 2) / 153
  let d : Nat := doy - (153 * mp + 2) / 5 + 1
  let m : Nat := if mp < 10 then mp + 3 else mp - 9
  let yy : Int := if m ≤ 2 then y + 1 else y
  ⟨yy.toNat, m, d, rem / 3600, rem % 3600 / 60, rem % 60⟩

/-- `AccelerometerData` (src/main.py lines 65-68). -/
structure AccelerometerData where
  x : Rat
  y : Rat
  z : Rat
deriving DecidableEq, Repr

/-- `GpsData` (src/main.py lines 71-73). -/
structure GpsData where
  latitude : Rat
  longitude : Rat
deriving DecidableEq, Repr

/-- `AgentData` after successful pydantic validation (src/main.py lines 76-92). -/
structure AgentData where
  user_id : Int
  accelerometer : AccelerometerData
  gps : GpsData
  timestamp : DateTime
deriving DecidableEq, Repr

/-- The raw `timestamp` field of an incoming request body: either already a
datetime instance or a string to be parsed (src/main.py lines 84-88). -/
inductive RawTs where
  | dt (t : DateTime)
  | str (s : String)
deriving DecidableEq, Repr

/-- `AgentData.check_timestamp` (src/main.py lines 82-92) as written:
pass a datetime through, else parse with `fromisoformat` (`none` models
the raised `ValueError`).  The decorator stack places `@classmethod`
ABOVE `@field_validator` (lines 82-83), so pydantic v2's decorator
collection never sees the `field_validator` proxy and this validator is
never registered: it is dead code, and the active boundary check on
`timestamp` is pydantic's built-in coercion, `pydanticDatetimeLax`
below. -/
def check_timestamp : RawTs → Option DateTime
  | .dt t => some t
  | .str s => fromisoformat s

/-- Model of pydantic v2's built-in lax `datetime` coercion — the check
that actually runs on the `timestamp : datetime` field, since
`check_timestamp` is unregistered: a datetime instance passes; a string
is accepted when it is an ISO-8601 datetime or a numeric string
interpreted as a unix timestamp.  Deliberately permissive where the
library grammar is stricter (range checks, offset shape): the modelled
reject set is a subset of the program's true reject set, so theorems
about rejected inputs stay sound. -/
def pydanticDatetimeLax : RawTs → Option DateTime
  | .dt t => some t
  | .str s =>
      match parseIsoDateTime s with
      | some t => some t
      | none =>
          match parseUnixNumeric s with
          | some n => some (fromUnix n)
          | none => none

/-- An incoming `agent_data` object before timestamp validation. -/
structure RawAgentData where
  user_id : Int
  accelerometer : AccelerometerData
  gps : GpsData
  timestamp : RawTs
deriving DecidableEq, Repr

/-- Pydantic validation of a raw `AgentData` body: the `timestamp` field
passes through pydantic's built-in lax datetime coercion (the
`check_timestamp` validator is never registered — see its doc comment);
failure means the request is rejected with a 422 before the endpoint
function runs. -/
def RawAgentData.validate (raw : RawAgentData) : Option AgentData :=
  match pydanticDatetimeLax raw.timestamp with
  | none => none
  | some t => some ⟨raw.user_id, raw.accelerometer, raw.gps, t⟩

/-- `ProcessedAgentData` (src/main.py lines 94-96). -/
structure ProcessedAgentData where
  road_state : String
  agent_data : AgentData
deriving DecidableEq, Repr

/-- `ProcessedAgentDataInDB` (src/main.py lines 52-61): the flat stored
record schema. -/
structure ProcessedAgentDataInDB where
  id : Int
  road_state : String
  user_id : Int
  x : Rat
  y : Rat
  z : Rat
  latitude : Rat
  longitude : Rat
  timestamp : DateTime
deriving DecidableEq, Repr

/-- A Python value as it appears among keyword arguments: primitives, a
datetime, or the nested dict produced by serializing an `AgentData`. -/
inductive PyVal where
  | vInt (i : Int)
  | vRat (q : Rat)
  | vStr (s : String)
  | vDT (t : DateTime)
  | vAgentData (a : AgentData)
deriving DecidableEq, Repr

/-- `ProcessedAgentData.dict()`: pydantic serializes the model to a dict
with its two declared fields; `agent_data` becomes a nested dict, modelled
here by the `vAgentData` constructor. -/
def ProcessedAgentData.dict (d : ProcessedAgentData) : List (String × PyVal) :=
  [("road_state", .vStr d.road_state), ("agent_data", .vAgentData d.agent_data)]

/-- First-match lookup among keyword arguments. -/
def lookupKw (kwargs : List (String × PyVal)) (k : String) : Option PyVal :=
  match kwargs.find? (fun p => p.1 = k) with
  | none => none
  | some p => some p.2

/-- The keyword arguments of the constructor call
`ProcessedAgentDataInDB(**data.dict(), timestamp=datetime.utcnow())`
(src/main.py line 109), with `now` the value of `datetime.utcnow()`. -/
def createCallKwargs (d : ProcessedAgentData) (now : DateTime) : List (String × PyVal) :=
  d.dict ++ [("timestamp", .vDT now)]

/-- Pydantic validation of an `int` field: an int value passes, anything
else (or a missing field) is a `ValidationError`. -/
def asInt : Option PyVal → Option Int
  | some (.vInt i) => some i
  | _ => none

/-- Pydantic validation of a `float` field: a numeric value passes (ints
are coerced to float), anything else fails. -/
def asRat : Option PyVal → Option Rat
  | some (.vRat q) => some q
  | some (.vInt i) => some (i : Rat)
  | _ => none

/-- Pydantic validation of a `str` field. -/
def asStr : Option PyVal → Option String
  | some (.vStr s) => some s
  | _ => none

/-- Pydantic validation of a `datetime` field. -/
def asDT : Option PyVal → Option DateTime
  | some (.vDT t) => some t
  | _ => none

/-- Pydantic construction of `ProcessedAgentDataInDB` from keyword
arguments: every declared field must be present with a value of the right
shape; unknown keys are ignored (pydantic's default `extra` policy); a
missing or ill-shaped field raises `ValidationError`, modelled by `none`. -/
def ProcessedAgentDataInDB.construct (kwargs : List (String × PyVal)) :
    Option ProcessedAgentDataInDB := do
  let i ← asInt (lookupKw kwargs "id")
  let rs ← asStr (lookupKw kwargs "road_state")
  let uid ← asInt (lookupKw kwargs "user_id")
  let x ← asRat (lookupKw kwargs "x")
  let y ← asRat (lookupKw kwargs "y")
  let z ← asRat (lookupKw kwargs "z")
  let la ← asRat (lookupKw kwargs "latitude")
  let lo ← asRat (lookupKw kwargs "longitude")
  let ts ← asDT (lookupKw kwargs "timestamp")
  pure ⟨i, rs, uid, x, y, z, la, lo, ts⟩

/-- Render a `DateTime` the way `json.dumps` renders the serialized
datetime field. -/
def DateTime.render (t : DateTime) : String :=
  toString t.year ++ "-" ++ toString t.month ++ "-" ++ toString t.day ++ "T" ++
  toString t.hour ++ ":" ++ toString t.minute ++ ":" ++ toString t.second

/-- Model of `json.dumps(db_data.dict())` (src/main.py line 114): one
string determined by the record's field values. -/
def jsonDumps (r : ProcessedAgentDataInDB) : String :=
  "\x7b\"id\": " ++ toString r.id ++
  ", \"road_state\": \"" ++ r.road_state ++
  "\", \"user_id\": " ++ toString r.user_id ++
  ", \"x\": " ++ toString r.x ++
  ", \"y\": " ++ toString r.y ++
  ", \"z\": " ++ toString r.z ++
  ", \"latitude\": " ++ toString r.latitude ++
  ", \"longitude\": " ++ toString r.longitude ++
  ", \"timestamp\": \"" ++ r.timestamp.render ++ "\"\x7d"

/-- The in-memory registry `subscriptions : Dict[int, Set[WebSocket]]`
(src/main.py line 100): agent id ↦ connection list (list order = the
set's iteration order). -/
def Subs := List (Int × List Nat)

/-- `subscriptions[uid]` / `uid in subscriptions`: first-match lookup. -/
def subsLookup (subs : Subs) (uid : Int) : Option (List Nat) :=
  match List.find? (fun p => p.1 = uid) subs with
  | none => none
  | some p => some p.2

/-- Observable events of a handler run. -/
inductive Ev where
  | commit (r : ProcessedAgentDataInDB)
  | regLookup (uid : Int)
  | send (ws : Nat) (msg : String)
deriving DecidableEq, Repr

/-- Outcome of one run of the create endpoint.  `typeError` is the
`TypeError` raised by `async with` on an object without `__aenter__`;
`validationError` is a pydantic `ValidationError`; `storageError` a
failed commit; `sendError` an exception escaping a `send_text`. -/
inductive CreateOutcome where
  | success (r : ProcessedAgentDataInDB)
  | typeError
  | validationError
  | storageError
  | sendError (ws : Nat)
deriving DecidableEq, Repr

/-- The fan-out loop (src/main.py lines 115-116):
`for websocket in subscriptions[uid]: await websocket.send_text(message)`.
Each successful send appends a send event; a failing send raises, so the
loop stops and the exception propagates (there is no try/except). -/
def fanOut (sendOk : Nat → Bool) (msg : String) : List Nat → List Ev × Option Nat
  | [] => ([], none)
  | w :: ws =>
      if sendOk w then
        let rest := fanOut sendOk msg ws
        (Ev.send w msg :: rest.1, rest.2)
      else ([], some w)

/-- Lines 110-117 of src/main.py, from a constructed `db_data` onward:
`session.add`; `session.commit()` (outcome `commitOk`); then the
membership test on `subscriptions` and the fan-out loop; finally
`return db_data`.  `uid` is `data.agent_data.user_id`. -/
def commitAndDispatch (commitOk : Bool) (sendOk : Nat → Bool) (subs : Subs)
    (db_data : ProcessedAgentDataInDB) (uid : Int) : List Ev × CreateOutcome :=
  if commitOk then
    match subsLookup subs uid with
    | none => ([Ev.commit db_data, Ev.regLookup uid], .success db_data)
    | some conns =>
        let f := fanOut sendOk (jsonDumps db_data) conns
        match f.2 with
        | none => (Ev.commit db_data :: Ev.regLookup uid :: f.1, .success db_data)
        | some w => (Ev.commit db_data :: Ev.regLookup uid :: f.1, .sendError w)
  else ([], .storageError)

/-- `create_processed_agent_data` (src/main.py lines 105-117): the body's
first statement is `async with SessionLocal() as session:` (line 107).
`sessionmaker(bind=engine)` produces a synchronous SQLAlchemy `Session`,
which has no `__aenter__`, so every invocation raises `TypeError` right
there: the line-109 construction (which would itself fail — see
`ProcessedAgentDataInDB.construct` on `createCallKwargs`), the
add/commit, and the fan-out of lines 110-117 (modelled separately by
`commitAndDispatch`) are never reached, and the trace is empty. -/
def create_processed_agent_data (_commitOk : Bool) (_sendOk : Nat → Bool) (_subs : Subs)
    (_now : DateTime) (_data : ProcessedAgentData) : List Ev × CreateOutcome :=
  ([], .typeError)

/-- The POST `/processed_agent_data/` boundary: FastAPI validates the
request body (including `check_timestamp`) before the endpoint function
runs; an invalid body yields a 422 response and the handler is never
invoked. -/
def ingestEndpoint (commitOk : Bool) (sendOk : Nat → Bool) (subs : Subs)
    (now : DateTime) (road_state : String) (raw : RawAgentData) :
    List Ev × Option CreateOutcome :=
  match raw.validate with
  | none => ([], none)
  | some a =>
      let r := create_processed_agent_data commitOk sendOk subs now ⟨road_state, a⟩
      (r.1, some r.2)

/-! ## The CRUD query endpoints (src/main.py lines 121-163)

Each of the by-id endpoints opens with
`session.query(ProcessedAgentDataInDB).filter(ProcessedAgentDataInDB.id == ...)`.
`ProcessedAgentDataInDB` is the pydantic model of lines 52-61 — despite
the `# SQLAlchemy model` comment above it, it is never mapped to the Core
table of lines 35-47 — so `Session.query` raises (`ArgumentError` on the
unmapped entity; the class-level `.id` filter expression is itself an
`AttributeError` on a pydantic class).  The 404 / return logic below the
query is unreachable, and the store (whose contents `st` are the external
collaborator's state) is never read or written by these endpoints. -/

/-- Result of a CRUD endpoint: the record, the 404 `HTTPException`, or
the server error raised by querying the unmapped pydantic class. -/
inductive CrudResult where
  | ok (r : ProcessedAgentDataInDB)
  | notFound
  | queryError
deriving DecidableEq, Repr

/-- `read_processed_agent_data` (src/main.py lines 121-128): the query on
the unmapped class raises for every id, before the not-found check. -/
def read_processed_agent_data (_st : List ProcessedAgentDataInDB) (_i : Int) :
    CrudResult :=
  .queryError

/-- `update_processed_agent_data` (src/main.py lines 140-150): the query
on the unmapped class raises for every id, before the not-found check and
the setattr loop; the store is unchanged. -/
def update_processed_agent_data (st : List ProcessedAgentDataInDB) (_i : Int)
    (_d : ProcessedAgentData) : List ProcessedAgentDataInDB × CrudResult :=
  (st, .queryError)

/-- `delete_processed_agent_data` (src/main.py lines 154-163): the query
on the unmapped class raises for every id, before the not-found check and
the delete; the store is unchanged. -/
def delete_processed_agent_data (st : List ProcessedAgentDataInDB) (_i : Int) :
    List ProcessedAgentDataInDB × CrudResult :=
  (st, .queryError)

/-! ## Reachable application states (for the registry-emptiness invariant)

The module-level state of the program is the database contents and the
`subscriptions` dict (src/main.py line 100).  The program's only
operations are the five HTTP endpoints; the source defines no WebSocket
endpoint and no code path that inserts into `subscriptions`. -/

/-- Module-level mutable state of the application. -/
structure AppState where
  store : List ProcessedAgentDataInDB
  subscriptions : Subs

/-- One invocation of one of the five HTTP endpoints, with the external
outcomes (commit success, send success, clock) as parameters. -/
inductive Endpoint where
  | create (commitOk : Bool) (sendOk : Nat → Bool) (now : DateTime)
      (road_state : String) (raw : RawAgentData)
  | read (i : Int)
  | list
  | update (i : Int) (d : ProcessedAgentData)
  | delete (i : Int)

/-- State transition of one endpoint invocation.  No endpoint writes to
`subscriptions`.  (On the create endpoint's success outcome the committed
row is appended; id assignment by the store is immaterial because, as
proved below, that outcome is unreachable.) -/
def stepApp (s : AppState) : Endpoint → AppState
  | .create commitOk sendOk now rs raw =>
      match ingestEndpoint commitOk sendOk s.subscriptions now rs raw with
      | (_, some (.success r)) => ⟨s.store ++ [r], s.subscriptions⟩
      | _ => ⟨s.store, s.subscriptions⟩
  | .read _ => s
  | .list => s
  | .update i d => ⟨(update_processed_agent_data s.store i d).1, s.subscriptions⟩
  | .delete i => ⟨(delete_processed_agent_data s.store i).1, s.subscriptions⟩

/-- States reachable from process start: the database may hold anything,
the `subscriptions` dict starts out as the empty literal `{}`. -/
inductive ReachableApp : AppState → Prop
  | init (st : List ProcessedAgentDataInDB) : ReachableApp ⟨st, []⟩
  | step {s : AppState} (e : Endpoint) : ReachableApp s → ReachableApp (stepApp s e)

/-! ## Direct iteration over the shared set vs. a snapshot (claim C4)

The fan-out loop iterates `subscriptions[uid]` itself — the live, shared
set — with an `await` (a suspension point) between consecutive sends, so
a concurrent `subscriptions[uid].remove(...)` can run mid-iteration.
CPython set iterators record the set's size at creation and raise
`RuntimeError` from `next()` after any size change. -/

/-- The keyword arguments of the constructor call on line 109 contain no
`"id"` key: `data.dict()` has only `road_state` and `agent_data`, and the
only explicit keyword is `timestamp`. -/
theorem lookupKw_createCallKwargs_id (d : ProcessedAgentData) (now : DateTime) :
    lookupKw (createCallKwargs d now) "id" = none := rfl

/-- Constructing `ProcessedAgentDataInDB` from the line-109 keyword
arguments always raises `ValidationError`: the required field `id` (among
others) is absent. -/
theorem construct_createCallKwargs (d : ProcessedAgentData) (now : DateTime) :
    ProcessedAgentDataInDB.construct (createCallKwargs d now) = none := by
  have h := lookupKw_createCallKwargs_id d now
  simp [ProcessedAgentDataInDB.construct, h, asInt]

/-- After a successful commit, the trace of lines 110-117 is the commit,
the registry lookup, then the fan-out's sends. -/
theorem commitAndDispatch_fst_true (sendOk : Nat → Bool) (subs : Subs)
    (db : ProcessedAgentDataInDB) (uid : Int) :
    (commitAndDispatch true sendOk subs db uid).1 =
      Ev.commit db :: Ev.regLookup uid ::
        (match subsLookup subs uid with
         | none => []
         | some conns => (fanOut sendOk (jsonDumps db) conns).1) := by
  unfold commitAndDispatch
  cases hs : subsLookup subs uid with
  | none => simp
  | some conns =>
      cases hf : (fanOut sendOk (jsonDumps db) conns).2 <;> simp [hf]

/-! ## Claim theorems -/

/-- C10 counterexample: at a concrete input the create handler's outcome
is the line-107 `TypeError` (`async with` on a synchronous `Session` with
no `__aenter__`), not the `ValidationError` the claim attributes to the
line-109 construction — that construction is never executed. -/
theorem C10_counterexample :
    create_processed_agent_data true (fun _ => true) []
        ⟨2024, 1, 1, 0, 0, 0⟩ ⟨"pothole", ⟨42, ⟨1, 2, 3⟩, ⟨50, 30⟩, ⟨2023, 5, 5, 1, 2, 3⟩⟩⟩
      = ([], .typeError) ∧
    create_processed_agent_data true (fun _ => true) []
        ⟨2024, 1, 1, 0, 0, 0⟩ ⟨"pothole", ⟨42, ⟨1, 2, 3⟩, ⟨50, 30⟩, ⟨2023, 5, 5, 1, 2, 3⟩⟩⟩
      ≠ ([], .validationError) :=
  ⟨rfl, by decide⟩

/-- C10 (amended): for every input, `create_processed_agent_data` raises
before any commit, registry access or send — a `TypeError` at
`async with SessionLocal() as session:` (line 107), since the synchronous
`Session` has no `__aenter__` — so the trace is empty and no record is
ever persisted or delivered through the ingest endpoint; and had
execution reached line 109, the `ProcessedAgentDataInDB` construction
from the nested `data.dict()` would itself fail, its required flat fields
being absent. -/
theorem C10_amended_type_error_before_commit (commitOk : Bool) (sendOk : Nat → Bool)
    (subs : Subs) (now : DateTime) (data : ProcessedAgentData) :
    create_processed_agent_data commitOk sendOk subs now data = ([], .typeError) ∧
    ProcessedAgentDataInDB.construct (createCallKwargs data now) = none :=
  ⟨rfl, construct_createCallKwargs data now⟩

/-- C1: in the create handler (lines 110-117), a failed store commit
yields `StorageError` with an empty trace (dispatch never invoked), and
every send event in the trace lies strictly after the commit event, which
is the head of the trace. -/
theorem C1_commit_before_notify (commitOk : Bool) (sendOk : Nat → Bool) (subs : Subs)
    (db_data : ProcessedAgentDataInDB) (uid : Int) :
    (commitOk = false →
      commitAndDispatch commitOk sendOk subs db_data uid = ([], .storageError)) ∧
    (∀ w m, Ev.send w m ∈ (commitAndDispatch commitOk sendOk subs db_data uid).1 →
      ∃ tail, (commitAndDispatch commitOk sendOk subs db_data uid).1
                = Ev.commit db_data :: tail ∧ Ev.send w m ∈ tail) := by
  constructor
  · intro h; subst h; rfl
  · intro w m hm
    cases commitOk with
    | false => simp [commitAndDispatch] at hm
    | true =>
        rw [commitAndDispatch_fst_true] at hm ⊢
        refine ⟨_, rfl, ?_⟩
        cases hm with
        | tail _ hm' => exact hm'

/-- Concrete record used in witnesses. -/
def r0 : ProcessedAgentDataInDB :=
  ⟨1, "pothole", 42, 1, 2, 3, 50, 30, ⟨2024, 1, 1, 0, 0, 0⟩⟩

/-- Witness for C1: at a concrete input, a failed commit produces the
empty trace with `StorageError`, and with a successful commit the send to
subscriber 1 lies strictly after the head commit event. -/
theorem C1_witness :
    commitAndDispatch false (fun _ => true) [(42, [1])] r0 42 = ([], .storageError) ∧
    ∃ tail, (commitAndDispatch true (fun _ => true) [(42, [1])] r0 42).1
              = Ev.commit r0 :: tail ∧ Ev.send 1 (jsonDumps r0) ∈ tail := by
  refine ⟨(C1_commit_before_notify false (fun _ => true) [(42, [1])] r0 42).1 rfl,
          (C1_commit_before_notify true (fun _ => true) [(42, [1])] r0 42).2 1 (jsonDumps r0) ?_⟩
  have ht : (commitAndDispatch true (fun _ => true) [(42, [1])] r0 42).1
      = [Ev.commit r0, Ev.regLookup 42, Ev.send 1 (jsonDumps r0)] := rfl
  rw [ht]; simp

/-- C7 counterexample: the unix-timestamp string `"1672531200"` is not
parseable ISO-8601 (and the source's own — unregistered — validator would
reject it), yet pydantic's built-in lax datetime coercion accepts it: the
request passes body validation, no input-validation error is surfaced,
and the endpoint function is invoked (failing later with the line-107
`TypeError`, not a validation error). -/
theorem C7_counterexample :
    parseIsoDateTime "1672531200" = none ∧
    check_timestamp (RawTs.str "1672531200") = none ∧
    (pydanticDatetimeLax (RawTs.str "1672531200")).isSome = true ∧
    (RawAgentData.mk 42 ⟨1, 2, 3⟩ ⟨50, 30⟩ (RawTs.str "1672531200")).validate.isSome
      = true ∧
    ingestEndpoint true (fun _ => true) [] ⟨2024, 1, 1, 0, 0, 0⟩ "pothole"
        (RawAgentData.mk 42 ⟨1, 2, 3⟩ ⟨50, 30⟩ (RawTs.str "1672531200"))
      = ([], some CreateOutcome.typeError) :=
  ⟨rfl, rfl, rfl, rfl, rfl⟩

/-- C7 (amended): the `check_timestamp` validator is never registered
(`@classmethod` sits above `@field_validator`), so the active boundary
check is pydantic's built-in lax datetime coercion, which accepts
ISO-8601 and also numeric unix-timestamp strings; for every request whose
timestamp that coercion rejects, the ingest caller gets the 422
validation failure, the endpoint function never runs, and the trace is
empty — no store commit, no registry lookup, no send. -/
theorem C7_amended_boundary_rejection (commitOk : Bool) (sendOk : Nat → Bool)
    (subs : Subs) (now : DateTime) (road_state : String) (raw : RawAgentData)
    (h : pydanticDatetimeLax raw.timestamp = none) :
    ingestEndpoint commitOk sendOk subs now road_state raw = ([], none) := by
  simp [ingestEndpoint, RawAgentData.validate, h]

/-- Witness for C7's amended theorem: the concrete string
`"not-a-timestamp"` is rejected by the boundary coercion, and the
corresponding request produces an empty trace and no handler outcome. -/
theorem C7_witness :
    pydanticDatetimeLax (RawTs.str "not-a-timestamp") = none ∧
    ingestEndpoint true (fun _ => true) [] ⟨2024, 1, 1, 0, 0, 0⟩ "pothole"
        ⟨42, ⟨1, 2, 3⟩, ⟨50, 30⟩, RawTs.str "not-a-timestamp"⟩ = ([], none) :=
  ⟨rfl, C7_amended_boundary_rejection true (fun _ => true) [] ⟨2024, 1, 1, 0, 0, 0⟩
      "pothole" ⟨42, ⟨1, 2, 3⟩, ⟨50, 30⟩, RawTs.str "not-a-timestamp"⟩ rfl⟩

/-- If pydantic construction succeeds, the record's `timestamp` field is
the value supplied under the `"timestamp"` keyword. -/
theorem construct_timestamp_eq {kwargs : List (String × PyVal)}
    {r : ProcessedAgentDataInDB} {t : DateTime}
    (h : ProcessedAgentDataInDB.construct kwargs = some r)
    (ht : lookupKw kwargs "timestamp" = some (.vDT t)) : r.timestamp = t := by
  unfold ProcessedAgentDataInDB.construct at h
  rw [ht] at h
  simp only [asDT, Option.bind_eq_some, Option.pure_def, Option.some.injEq, bind,
    Option.bind_eq_some] at h
  obtain ⟨i, _, rs, _, uid, _, x, _, y, _, z, _, la, _, lo, _, a, hta, hr⟩ := h
  subst hta
  subst hr
  rfl

/-- C6: the create handler passes `datetime.utcnow()` as the stored
record's `timestamp` keyword, unconditionally discarding the validated
client-supplied `data.agent_data.timestamp`; any record pydantic could
construct from those keyword arguments (however extended with the missing
flat fields) carries the server time. -/
theorem C6_server_timestamp (data : ProcessedAgentData) (now : DateTime) :
    lookupKw (createCallKwargs data now) "timestamp" = some (.vDT now) ∧
    ∀ extra r, ProcessedAgentDataInDB.construct (createCallKwargs data now ++ extra)
        = some r → r.timestamp = now := by
  refine ⟨rfl, fun extra r h => construct_timestamp_eq h rfl⟩

/-- Concrete input used in witnesses; its client timestamp (2023-05-05)
differs from the server time `now0`. -/
def data0 : ProcessedAgentData :=
  ⟨"pothole", ⟨42, ⟨1, 2, 3⟩, ⟨50, 30⟩, ⟨2023, 5, 5, 1, 2, 3⟩⟩⟩

/-- Concrete server ingest time used in witnesses. -/
def now0 : DateTime := ⟨2024, 1, 1, 0, 0, 0⟩

/-- The missing flat fields, supplied explicitly to exercise the
construction success path in witnesses. -/
def extra0 : List (String × PyVal) :=
  [("id", .vInt 1), ("user_id", .vInt 42), ("x", .vRat 1), ("y", .vRat 2),
   ("z", .vRat 3), ("latitude", .vRat 50), ("longitude", .vRat 30)]

/-- Witness for C6: with the missing fields supplied, construction
succeeds and the resulting record's timestamp is the server time `now0`,
not the client's 2023-05-05 timestamp. -/
theorem C6_witness :
    ProcessedAgentDataInDB.construct (createCallKwargs data0 now0 ++ extra0)
      = some ⟨1, "pothole", 42, 1, 2, 3, 50, 30, now0⟩ ∧
    (⟨1, "pothole", 42, 1, 2, 3, 50, 30, now0⟩ : ProcessedAgentDataInDB).timestamp
      = now0 :=
  ⟨rfl, (C6_server_timestamp data0 now0).2 extra0 ⟨1, "pothole", 42, 1, 2, 3, 50, 30, now0⟩ rfl⟩

/-- C8: the claimed 404-iff-absent behaviour never materializes: each of
get-by-id, update-by-id and delete-by-id queries the unmapped pydantic
class `ProcessedAgentDataInDB` and so raises a server error for every id
and every store — never returning the not-found response or a record —
while leaving the store unchanged. -/
theorem C8_query_always_raises (st : List ProcessedAgentDataInDB) (i : Int)
    (d : ProcessedAgentData) :
    read_processed_agent_data st i = .queryError ∧
    read_processed_agent_data st i ≠ .notFound ∧
    update_processed_agent_data st i d = (st, .queryError) ∧
    delete_processed_agent_data st i = (st, .queryError) :=
  ⟨rfl, by simp [read_processed_agent_data], rfl, rfl⟩

/-- No endpoint invocation modifies the `subscriptions` mapping: the
source defines no WebSocket endpoint and no call that inserts into it. -/
theorem stepApp_subscriptions (s : AppState) (e : Endpoint) :
    (stepApp s e).subscriptions = s.subscriptions := by
  cases e with
  | create commitOk sendOk now rs raw =>
      cases h : ingestEndpoint commitOk sendOk s.subscriptions now rs raw with
      | mk evs out =>
          cases out with
          | none => simp [stepApp, h]
          | some o => cases o <;> simp [stepApp, h]
  | read i => rfl
  | list => rfl
  | update i d => rfl
  | delete i => rfl

/-- C9: in every reachable application state the subscriptions registry is
empty, and consequently (in fact for two reasons: the registry lookup
misses, and the create handler raises at line 107 before dispatch)
neither the ingest endpoint nor the dispatch fragment ever emits a send
event. -/
theorem C9_registry_always_empty (s : AppState) (h : ReachableApp s) :
    s.subscriptions = [] ∧
    (∀ commitOk sendOk now rs raw w m,
        Ev.send w m ∉ (ingestEndpoint commitOk sendOk s.subscriptions now rs raw).1) ∧
    (∀ commitOk sendOk db uid w m,
        Ev.send w m ∉ (commitAndDispatch commitOk sendOk s.subscriptions db uid).1) := by
  have hemp : s.subscriptions = [] := by
    induction h with
    | init st => rfl
    | step e hs ih => rw [stepApp_subscriptions]; exact ih
  refine ⟨hemp, ?_, ?_⟩
  · intro commitOk sendOk now rs raw w m
    rw [hemp]
    cases hv : raw.validate with
    | none => simp [ingestEndpoint, hv]
    | some a => simp [ingestEndpoint, hv, create_processed_agent_data]
  · intro commitOk sendOk db uid w m
    rw [hemp]
    cases commitOk with
    | false => simp [commitAndDispatch]
    | true =>
        have hn : subsLookup [] uid = none := rfl
        simp [commitAndDispatch, hn]

/-- Witness for C9: the initial state (arbitrary store taken empty, empty
registry) is reachable; its registry is empty and a concrete ingest
attempt and a concrete dispatch emit no send to connection 1. -/
theorem C9_witness :
    (AppState.mk [] []).subscriptions = [] ∧
    Ev.send 1 (jsonDumps r0)
      ∉ (ingestEndpoint true (fun _ => true) (AppState.mk [] []).subscriptions now0
          "pothole" ⟨42, ⟨1, 2, 3⟩, ⟨50, 30⟩, RawTs.dt now0⟩).1 ∧
    Ev.send 1 (jsonDumps r0)
      ∉ (commitAndDispatch true (fun _ => true) (AppState.mk [] []).subscriptions r0 42).1 := by
  have h := C9_registry_always_empty (AppState.mk [] []) (ReachableApp.init [])
  exact ⟨h.1, h.2.1 true (fun _ => true) now0 "pothole"
      ⟨42, ⟨1, 2, 3⟩, ⟨50, 30⟩, RawTs.dt now0⟩ 1 (jsonDumps r0),
    h.2.2 true (fun _ => true) r0 42 1 (jsonDumps r0)⟩

